import Mathlib

/-!
Verification of `src/transformers/models/pop2piano/configuration_pop2piano.py`.

Strings are modelled as `List Char`; Python's `str.split(sep)` for a
single-character separator is modelled by `splitOnChar`, which (like the
Python function) always returns a non-empty list and returns `[[]]` on the
empty string.  Machine floats that are merely stored (dropout rate, layer
norm epsilon, initializer factor) are modelled as `Rat` pass-through values.
Fallible construction (`raise ValueError`) is modelled with `Except`.
-/

set_option autoImplicit false

/-- Strings of the Python source, modelled as lists of characters. -/
abbrev Str := List Char

/-- Python `s.split(c)` for a one-character separator `c`: splits on every
occurrence of `c`, keeping empty segments, and returns `[[]]` on `[]`. -/
def splitOnChar (c : Char) : Str → List Str
  | [] => [[]]
  | x :: xs =>
    if x = c then [] :: splitOnChar c xs
    else
      match splitOnChar c xs with
      | [] => [[x]]
      | h :: t => (x :: h) :: t

/-- The literal `"gated"` used by the activation parsing code. -/
def gatedStr : Str := "gated".toList

/-- The literal `"gated-gelu"` checked by the backwards-compatibility branch. -/
def gatedGeluStr : Str := "gated-gelu".toList

/-- The literal `"gelu_new"` substituted for backwards compatibility. -/
def geluNewStr : Str := "gelu_new".toList

/-- Leading text of the `ValueError` message raised for an invalid
`feed_forward_proj` (the part of the Python f-string before the value). -/
def ffpErrorPre : Str := "`feed_forward_proj`: ".toList

/-- Trailing text of the `ValueError` message (the part of the Python
f-string after the interpolated value; two adjacent string literals in the
source concatenate with no separator). -/
def ffpErrorPost : Str :=
  (" is not a valid activation function of the dense layer."
    ++ "Please make sure `feed_forward_proj` is of the format `gated-\x7bACT_FN\x7d` or `\x7bACT_FN\x7d`, e.g. "
    ++ "\x27gated-gelu\x27 or \x27relu\x27").toList

/-- The full `ValueError` message for an invalid `feed_forward_proj` value. -/
def ffpErrorMsg (feed_forward_proj : Str) : Str :=
  ffpErrorPre ++ feed_forward_proj ++ ffpErrorPost

/-- Attributes assigned by `Pop2PianoConfig.__init__`.  The fields
`pad_token_id`, `eos_token_id` and `is_encoder_decoder` are forwarded to
`super().__init__` (the `PretrainedConfig` base class, outside this file's
source), which stores them; extra `**kwargs` go only to that base class and
are not needed by any property proved here. -/
structure Pop2PianoConfig where
  vocab_size : Int
  d_model : Int
  d_kv : Int
  d_ff : Int
  num_layers : Int
  num_decoder_layers : Int
  num_heads : Int
  relative_attention_num_buckets : Int
  relative_attention_max_distance : Int
  dropout_rate : Rat
  layer_norm_epsilon : Rat
  initializer_factor : Rat
  feed_forward_proj : Str
  use_cache : Bool
  dense_act_fn : Str
  is_gated_act : Bool
  is_encoder_decoder : Bool
  pad_token_id : Int
  eos_token_id : Int
deriving DecidableEq, Repr

/-- The body of `Pop2PianoConfig.__init__`, in source order: store the
scalar arguments (`num_decoder_layers` defaulting to `num_layers` when it is
`None`), split `feed_forward_proj` on `"-"`, derive `dense_act_fn`
(`act_info[-1]`) and `is_gated_act` (`act_info[0] == "gated"`), raise
`ValueError` when `len(act_info) > 1 and act_info[0] != "gated" or
len(act_info) > 2`, then rewrite `dense_act_fn` to `"gelu_new"` when the
full value equals `"gated-gelu"`. -/
def Pop2PianoConfig.init
    (vocab_size d_model d_kv d_ff num_layers : Int)
    (num_decoder_layers : Option Int)
    (num_heads relative_attention_num_buckets relative_attention_max_distance : Int)
    (dropout_rate layer_norm_epsilon initializer_factor : Rat)
    (feed_forward_proj : Str)
    (is_encoder_decoder use_cache : Bool)
    (pad_token_id eos_token_id : Int) : Except Str Pop2PianoConfig :=
  let act_info := splitOnChar '-' feed_forward_proj
  let dense_act_fn := act_info.getLastD []
  let is_gated_act : Bool := act_info.headD [] == gatedStr
  if (1 < act_info.length ∧ act_info.headD [] ≠ gatedStr) ∨ 2 < act_info.length then
    Except.error (ffpErrorMsg feed_forward_proj)
  else
    Except.ok
      { vocab_size := vocab_size
        d_model := d_model
        d_kv := d_kv
        d_ff := d_ff
        num_layers := num_layers
        num_decoder_layers :=
          match num_decoder_layers with
          | some n => n
          | none => num_layers
        num_heads := num_heads
        relative_attention_num_buckets := relative_attention_num_buckets
        relative_attention_max_distance := relative_attention_max_distance
        dropout_rate := dropout_rate
        layer_norm_epsilon := layer_norm_epsilon
        initializer_factor := initializer_factor
        feed_forward_proj := feed_forward_proj
        use_cache := use_cache
        dense_act_fn :=
          if feed_forward_proj = gatedGeluStr then geluNewStr else dense_act_fn
        is_gated_act := is_gated_act
        is_encoder_decoder := is_encoder_decoder
        pad_token_id := pad_token_id
        eos_token_id := eos_token_id }

/-- The module-level constant `COMPOSER_TO_FEATURE_TOKEN`, in source order. -/
def COMPOSER_TO_FEATURE_TOKEN : List (Str × Int) :=
  [("composer1".toList, 2052),
   ("composer2".toList, 2053),
   ("composer3".toList, 2054),
   ("composer4".toList, 2055),
   ("composer5".toList, 2056),
   ("composer6".toList, 2057),
   ("composer7".toList, 2058),
   ("composer8".toList, 2059),
   ("composer9".toList, 2060),
   ("composer10".toList, 2061),
   ("composer11".toList, 2062),
   ("composer12".toList, 2063),
   ("composer13".toList, 2064),
   ("composer14".toList, 2065),
   ("composer15".toList, 2066),
   ("composer16".toList, 2067),
   ("composer17".toList, 2068),
   ("composer18".toList, 2069),
   ("composer19".toList, 2070),
   ("composer20".toList, 2071),
   ("composer21".toList, 2072)]

/-- The nested `dataset` record assembled by `Pop2PianoProcessorConfig.__init__`. -/
structure DatasetRecord where
  target_length : Int
  input_length : Int
  n_bars : Int
  sample_rate : Int
  use_mel : Bool
  mel_is_conditioned : Bool
deriving DecidableEq, Repr

/-- The nested `vocab_size` record inside the `tokenizer` attribute. -/
structure VocabSizeRecord where
  special : Int
  note : Int
  velocity : Int
  time : Int
deriving DecidableEq, Repr

/-- The `tokenizer` attribute: a record holding only `vocab_size`. -/
structure TokenizerRecord where
  vocab_size : VocabSizeRecord
deriving DecidableEq, Repr

/-- The three instance attributes assigned by
`Pop2PianoProcessorConfig.__init__` (which never calls the base-class
initializer, so these are the only attributes it sets). -/
structure Pop2PianoProcessorConfig where
  composer_to_feature_token : List (Str × Int)
  dataset : DatasetRecord
  tokenizer : TokenizerRecord
deriving DecidableEq, Repr

/-- The body of `Pop2PianoProcessorConfig.__init__`: assign the constant
composer table and assemble the ten scalar arguments, unchecked, into the
`dataset` and `tokenizer` records.  `kwargs` models the `**kwargs`
parameter, which the body never reads (no `super().__init__` call). -/
def Pop2PianoProcessorConfig.init {α : Type}
    (vocab_size_special vocab_size_note vocab_size_velocity vocab_size_time : Int)
    (dataset_target_length dataset_input_length dataset_n_bars dataset_sample_rate : Int)
    (dataset_use_mel dataset_mel_is_conditioned : Bool)
    (kwargs : List (Str × α)) : Pop2PianoProcessorConfig :=
  let _ := kwargs
  { composer_to_feature_token := COMPOSER_TO_FEATURE_TOKEN
    dataset :=
      { target_length := dataset_target_length
        input_length := dataset_input_length
        n_bars := dataset_n_bars
        sample_rate := dataset_sample_rate
        use_mel := dataset_use_mel
        mel_is_conditioned := dataset_mel_is_conditioned }
    tokenizer :=
      { vocab_size :=
          { special := vocab_size_special
            note := vocab_size_note
            velocity := vocab_size_velocity
            time := vocab_size_time } } }

/-- Spec-side predicate (from the claimed table constraint, not from the
source): whether a string matches the regular expression
`^(gated-)?[a-z_]+$`. -/
def matchesSpecPattern (s : Str) : Bool :=
  let core : Str → Bool := fun t => !t.isEmpty && t.all (fun c => ('a' ≤ c && c ≤ 'z') || c = '_')
  core s || (s.take 6 = "gated-".toList && core (s.drop 6))

/-- Spec-side predicate (from the claimed invariant wording): the split of
`feed_forward_proj` on `"-"` has exactly one segment, or exactly two
segments whose first is the literal `"gated"`. -/
def specGoodShape (feed_forward_proj : Str) : Bool :=
  let l := splitOnChar '-' feed_forward_proj
  l.length == 1 || (l.length == 2 && (l.headD [] == gatedStr))

/-- The result of `splitOnChar` is never the empty list (Python `split`
always returns at least one segment). -/
theorem splitOnChar_ne_nil (c : Char) : ∀ l : Str, splitOnChar c l ≠ []
  | [] => by simp [splitOnChar]
  | x :: xs => by
    simp only [splitOnChar]
    split
    · simp
    · split
      · simp
      · simp

/-- Splitting a list that does not contain the separator yields the list as
its single segment. -/
theorem splitOnChar_of_not_mem (c : Char) : ∀ l : Str, c ∉ l → splitOnChar c l = [l]
  | [], _ => rfl
  | x :: xs, h => by
    have hx : ¬x = c := fun e => h (e ▸ List.mem_cons_self x xs)
    have hxs : c ∉ xs := fun m => h (List.mem_cons_of_mem x m)
    simp [splitOnChar, hx, splitOnChar_of_not_mem c xs hxs]

/-- Splitting `l ++ c :: r` where `l` is separator-free peels off `l` as the
first segment. -/
theorem splitOnChar_append_cons (c : Char) :
    ∀ l r : Str, c ∉ l → splitOnChar c (l ++ c :: r) = l :: splitOnChar c r
  | [], r, _ => by simp [splitOnChar]
  | x :: xs, r, h => by
    have hx : ¬x = c := fun e => h (e ▸ List.mem_cons_self x xs)
    have hxs : c ∉ xs := fun m => h (List.mem_cons_of_mem x m)
    simp [splitOnChar, hx, splitOnChar_append_cons c xs r hxs]

/-- A list containing the separator splits into at least two segments. -/
theorem two_le_length_splitOnChar (c : Char) :
    ∀ l : Str, c ∈ l → 2 ≤ (splitOnChar c l).length
  | x :: xs, h => by
    by_cases hx : x = c
    · subst hx
      have h1 : splitOnChar x xs ≠ [] := splitOnChar_ne_nil x xs
      have h2 : 0 < (splitOnChar x xs).length := List.length_pos.mpr h1
      simp [splitOnChar]
      omega
    · have hxs : c ∈ xs := by
        cases List.mem_cons.mp h with
        | inl e => exact absurd e.symm hx
        | inr m => exact m
      have ih := two_le_length_splitOnChar c xs hxs
      simp only [splitOnChar, if_neg hx]
      cases hsp : splitOnChar c xs with
      | nil => exact absurd hsp (splitOnChar_ne_nil c xs)
      | cons a t =>
        rw [hsp] at ih
        simpa using ih

/-- A split with exactly one segment means the separator was absent, so the
single segment is the whole list. -/
theorem splitOnChar_eq_single (c : Char) (l : Str)
    (h : (splitOnChar c l).length = 1) : splitOnChar c l = [l] := by
  by_cases hm : c ∈ l
  · have := two_le_length_splitOnChar c l hm
    omega
  · exact splitOnChar_of_not_mem c l hm

/-- C5: constructing without a `num_decoder_layers` override (`None`) yields
`num_decoder_layers = num_layers` for every value of `num_layers`, while an
explicit override is stored independently of `num_layers`. -/
theorem num_decoder_layers_default
    (vs dm dkv dff nl nh rb rm : Int) (dr lne inf : Rat) (ffp : Str)
    (ied uc : Bool) (pad eos m : Int) (cfg cfg2 : Pop2PianoConfig)
    (h : Pop2PianoConfig.init vs dm dkv dff nl none nh rb rm dr lne inf
        ffp ied uc pad eos = Except.ok cfg)
    (h2 : Pop2PianoConfig.init vs dm dkv dff nl (some m) nh rb rm dr lne inf
        ffp ied uc pad eos = Except.ok cfg2) :
    cfg.num_decoder_layers = nl ∧ cfg2.num_decoder_layers = m := by
  constructor
  · simp only [Pop2PianoConfig.init] at h
    split at h
    · exact absurd h (by simp)
    · injection h with h
      subst h
      rfl
  · simp only [Pop2PianoConfig.init] at h2
    split at h2
    · exact absurd h2 (by simp)
    · injection h2 with h2
      subst h2
      rfl

/-- Concrete configuration produced from the defaults of
`Pop2PianoConfig.__init__` with rational pass-through values `0, 0, 1`. -/
def cfgDefaultRelu : Pop2PianoConfig :=
  { vocab_size := 32128, d_model := 512, d_kv := 64, d_ff := 2048,
    num_layers := 6, num_decoder_layers := 6, num_heads := 8,
    relative_attention_num_buckets := 32, relative_attention_max_distance := 128,
    dropout_rate := 0, layer_norm_epsilon := 0, initializer_factor := 1,
    feed_forward_proj := "relu".toList, use_cache := true,
    dense_act_fn := "relu".toList, is_gated_act := false,
    is_encoder_decoder := true, pad_token_id := 0, eos_token_id := 1 }

/-- The same configuration with an explicit `num_decoder_layers = 9`. -/
def cfgOverride9 : Pop2PianoConfig :=
  { cfgDefaultRelu with num_decoder_layers := 9 }

/-- Witness for C5 at the default arguments with override `9`. -/
theorem num_decoder_layers_default_witness :
    cfgDefaultRelu.num_decoder_layers = 6 ∧ cfgOverride9.num_decoder_layers = 9 :=
  num_decoder_layers_default 32128 512 64 2048 6 8 32 128 0 0 1
    ("relu".toList) true true 0 1 9 cfgDefaultRelu cfgOverride9 rfl rfl

/-- C6: the `composer_to_feature_token` attribute of every constructed
processor configuration is the fixed constant table, which has exactly 21
entries, keys `"composer1"` .. `"composer21"` in order, mapping
`"composerN"` to `2051 + N` (the contiguous range 2052–2072). -/
theorem composer_table_constant {α : Type}
    (s n v t tl il nb sr : Int) (um mc : Bool) (kwargs : List (Str × α)) :
    (Pop2PianoProcessorConfig.init s n v t tl il nb sr um mc
        kwargs).composer_to_feature_token = COMPOSER_TO_FEATURE_TOKEN ∧
    COMPOSER_TO_FEATURE_TOKEN.length = 21 ∧
    COMPOSER_TO_FEATURE_TOKEN =
      (List.range 21).map
        (fun k => ("composer".toList ++ (Nat.repr (k + 1)).toList, (2052 + k : Int))) := by
  refine ⟨rfl, rfl, ?_⟩
  decide

/-- C7: constructing the processor configuration with all defaults yields
the documented `dataset` and `tokenizer.vocab_size` records. -/
theorem processor_defaults :
    Pop2PianoProcessorConfig.init 4 128 2 100 256 1024 2 22050 true true
        ([] : List (Str × Int)) =
    { composer_to_feature_token := COMPOSER_TO_FEATURE_TOKEN,
      dataset := { target_length := 256, input_length := 1024, n_bars := 2,
                   sample_rate := 22050, use_mel := true, mel_is_conditioned := true },
      tokenizer := { vocab_size := { special := 4, note := 128, velocity := 2,
                                     time := 100 } } } := rfl

/-- C8: processor construction is total and validation-free — for every
choice of the ten scalar arguments (including zero or negative values) it
returns, without any failure path, the record assembling exactly those
values. -/
theorem processor_total {α : Type}
    (s n v t tl il nb sr : Int) (um mc : Bool) (kwargs : List (Str × α)) :
    Pop2PianoProcessorConfig.init s n v t tl il nb sr um mc kwargs =
    { composer_to_feature_token := COMPOSER_TO_FEATURE_TOKEN,
      dataset := { target_length := tl, input_length := il, n_bars := nb,
                   sample_rate := sr, use_mel := um, mel_is_conditioned := mc },
      tokenizer := { vocab_size := { special := s, note := n, velocity := v,
                                     time := t } } } := rfl

/-- C9: extra keyword arguments are silently discarded — the constructed
processor configuration (whose type carries exactly the three attributes
assigned in the body) is identical for any two kwargs lists, even of
different value types. -/
theorem processor_ignores_kwargs {α β : Type}
    (s n v t tl il nb sr : Int) (um mc : Bool)
    (kw1 : List (Str × α)) (kw2 : List (Str × β)) :
    Pop2PianoProcessorConfig.init s n v t tl il nb sr um mc kw1 =
    Pop2PianoProcessorConfig.init s n v t tl il nb sr um mc kw2 := rfl

/-- C10: the empty activation strings are accepted: `""` yields
`dense_act_fn = ""` with `is_gated_act = false`, and `"gated-"` yields
`dense_act_fn = ""` with `is_gated_act = true`; neither triggers the
validation error. -/
theorem empty_activation_accepted
    (vs dm dkv dff nl : Int) (ndl : Option Int) (nh rb rm : Int)
    (dr lne inf : Rat) (ied uc : Bool) (pad eos : Int) :
    Pop2PianoConfig.init vs dm dkv dff nl ndl nh rb rm dr lne inf
        ([] : Str) ied uc pad eos =
      Except.ok
        { vocab_size := vs, d_model := dm, d_kv := dkv, d_ff := dff,
          num_layers := nl,
          num_decoder_layers := match ndl with | some k => k | none => nl,
          num_heads := nh, relative_attention_num_buckets := rb,
          relative_attention_max_distance := rm, dropout_rate := dr,
          layer_norm_epsilon := lne, initializer_factor := inf,
          feed_forward_proj := [], use_cache := uc, dense_act_fn := [],
          is_gated_act := false, is_encoder_decoder := ied,
          pad_token_id := pad, eos_token_id := eos } ∧
    Pop2PianoConfig.init vs dm dkv dff nl ndl nh rb rm dr lne inf
        ("gated-".toList) ied uc pad eos =
      Except.ok
        { vocab_size := vs, d_model := dm, d_kv := dkv, d_ff := dff,
          num_layers := nl,
          num_decoder_layers := match ndl with | some k => k | none => nl,
          num_heads := nh, relative_attention_num_buckets := rb,
          relative_attention_max_distance := rm, dropout_rate := dr,
          layer_norm_epsilon := lne, initializer_factor := inf,
          feed_forward_proj := "gated-".toList, use_cache := uc,
          dense_act_fn := [], is_gated_act := true, is_encoder_decoder := ied,
          pad_token_id := pad, eos_token_id := eos } :=
  ⟨rfl, rfl⟩

/-- C1: every `feed_forward_proj` of the form `"gated-X"` that constructs
successfully yields `is_gated_act = true` and `dense_act_fn = X` — except
that when the full value is `"gated-gelu"` the stored `dense_act_fn` is the
literal `"gelu_new"` — while `feed_forward_proj` itself is stored
unchanged. -/
theorem gated_prefix_parsing
    (vs dm dkv dff nl : Int) (ndl : Option Int) (nh rb rm : Int)
    (dr lne inf : Rat) (X : Str) (ied uc : Bool) (pad eos : Int)
    (cfg : Pop2PianoConfig)
    (h : Pop2PianoConfig.init vs dm dkv dff nl ndl nh rb rm dr lne inf
        (gatedStr ++ '-' :: X) ied uc pad eos = Except.ok cfg) :
    cfg.is_gated_act = true ∧
    cfg.feed_forward_proj = gatedStr ++ '-' :: X ∧
    cfg.dense_act_fn = if X = "gelu".toList then geluNewStr else X := by
  have hgd : '-' ∉ gatedStr := by decide
  have hnd : '-' ∉ X := by
    intro hmem
    have hsplit := splitOnChar_append_cons '-' gatedStr X hgd
    have hlen := two_le_length_splitOnChar '-' X hmem
    simp only [Pop2PianoConfig.init, hsplit] at h
    have hcond : (1 < (gatedStr :: splitOnChar '-' X).length ∧
          (gatedStr :: splitOnChar '-' X).headD [] ≠ gatedStr) ∨
        2 < (gatedStr :: splitOnChar '-' X).length := by
      right
      simp only [List.length_cons]
      omega
    rw [if_pos hcond] at h
    exact absurd h (by simp)
  have hX : splitOnChar '-' X = [X] := splitOnChar_of_not_mem '-' X hnd
  have hsplit : splitOnChar '-' (gatedStr ++ '-' :: X) = [gatedStr, X] := by
    rw [splitOnChar_append_cons '-' gatedStr X hgd, hX]
  simp only [Pop2PianoConfig.init, hsplit] at h
  rw [if_neg (by simp)] at h
  injection h with h
  subst h
  refine ⟨by simp, rfl, ?_⟩
  show (if gatedStr ++ '-' :: X = gatedGeluStr then geluNewStr
        else [gatedStr, X].getLastD []) = if X = "gelu".toList then geluNewStr else X
  by_cases hx : X = "gelu".toList
  · subst hx
    rw [if_pos (by decide), if_pos rfl]
  · have e : ¬(gatedStr ++ '-' :: X = gatedGeluStr) := by
      intro e
      apply hx
      have e2 : gatedStr ++ '-' :: X = gatedStr ++ '-' :: "gelu".toList := by
        rw [e]
        decide
      have e3 := List.append_cancel_left e2
      injection e3 with h1 h2
    rw [if_neg e, if_neg hx]
    rfl

/-- Concrete configuration constructed from `"gated-relu"` at the default
scalar arguments. -/
def cfgGatedRelu : Pop2PianoConfig :=
  { cfgDefaultRelu with feed_forward_proj := "gated-relu".toList,
                        dense_act_fn := "relu".toList, is_gated_act := true }

/-- Witness for C1 at `X = "relu"`. -/
theorem gated_prefix_parsing_witness :
    cfgGatedRelu.is_gated_act = true ∧ cfgGatedRelu.dense_act_fn = "relu".toList :=
  ⟨(gated_prefix_parsing 32128 512 64 2048 6 none 8 32 128 0 0 1
      ("relu".toList) true true 0 1 cfgGatedRelu rfl).1,
   (gated_prefix_parsing 32128 512 64 2048 6 none 8 32 128 0 0 1
      ("relu".toList) true true 0 1 cfgGatedRelu rfl).2.2⟩

/-- C2: construction returns the descriptive `ValueError` exactly when the
split of `feed_forward_proj` on `"-"` has neither one segment nor two
segments headed by `"gated"`; the message embeds the offending value
between the fixed texts naming the two accepted formats, and the `Except`
error means no configuration object is produced. -/
theorem invalid_shape_error
    (vs dm dkv dff nl : Int) (ndl : Option Int) (nh rb rm : Int)
    (dr lne inf : Rat) (ffp : Str) (ied uc : Bool) (pad eos : Int) :
    (Pop2PianoConfig.init vs dm dkv dff nl ndl nh rb rm dr lne inf
        ffp ied uc pad eos = Except.error (ffpErrorMsg ffp) ↔
      specGoodShape ffp = false) ∧
    ffpErrorMsg ffp = ffpErrorPre ++ ffp ++ ffpErrorPost := by
  refine ⟨?_, rfl⟩
  have hne : splitOnChar '-' ffp ≠ [] := splitOnChar_ne_nil '-' ffp
  have hlen : 1 ≤ (splitOnChar '-' ffp).length := List.length_pos.mpr hne
  simp only [Pop2PianoConfig.init, specGoodShape]
  split
  · rename_i hcond
    simp only [true_iff, Bool.or_eq_false_iff, Bool.and_eq_false_iff,
      beq_eq_false_iff_ne, ne_eq]
    rcases hcond with ⟨h1, h2⟩ | h3
    · exact ⟨by omega, Or.inr h2⟩
    · exact ⟨by omega, Or.inl (by omega)⟩
  · rename_i hcond
    push_neg at hcond
    obtain ⟨h1, h2⟩ := hcond
    constructor
    · intro hcontra
      exact absurd hcontra (by simp)
    · intro hb
      exfalso
      have hbt : ((splitOnChar '-' ffp).length == 1 ||
          ((splitOnChar '-' ffp).length == 2 &&
            ((splitOnChar '-' ffp).headD [] == gatedStr))) = true := by
        rcases Nat.lt_or_ge 1 (splitOnChar '-' ffp).length with hl | hl
        · have hg := h1 hl
          have hg2 : ((splitOnChar '-' ffp).headD [] == gatedStr) = true := by
            rw [hg]
            exact beq_self_eq_true _
          have hl2 : (splitOnChar '-' ffp).length = 2 := by omega
          rw [hl2, hg2]
          decide
        · have hl1 : (splitOnChar '-' ffp).length = 1 := by omega
          simp [hl1]
      rw [hb] at hbt
      exact absurd hbt (by simp)

/-- C3 counterexample: the no-hyphen value `"gated"` is accepted but the
constructed configuration has `is_gated_act = true`, not `false`. -/
theorem gated_literal_counterexample :
    Except.map Pop2PianoConfig.is_gated_act
      (Pop2PianoConfig.init 32128 512 64 2048 6 none 8 32 128 0 0 1
        ("gated".toList) true true 0 1) = Except.ok true := rfl

/-- C3 amended: every hyphen-free `feed_forward_proj` is accepted with
`dense_act_fn` equal to the value itself and `is_gated_act` equal to
whether the value is the literal `"gated"` (so `false` for every hyphen-free
value except `"gated"` itself). -/
theorem no_hyphen_parsing
    (vs dm dkv dff nl : Int) (ndl : Option Int) (nh rb rm : Int)
    (dr lne inf : Rat) (X : Str) (ied uc : Bool) (pad eos : Int)
    (h : '-' ∉ X) :
    Pop2PianoConfig.init vs dm dkv dff nl ndl nh rb rm dr lne inf
        X ied uc pad eos =
    Except.ok
      { vocab_size := vs, d_model := dm, d_kv := dkv, d_ff := dff,
        num_layers := nl,
        num_decoder_layers := match ndl with | some k => k | none => nl,
        num_heads := nh, relative_attention_num_buckets := rb,
        relative_attention_max_distance := rm, dropout_rate := dr,
        layer_norm_epsilon := lne, initializer_factor := inf,
        feed_forward_proj := X, use_cache := uc, dense_act_fn := X,
        is_gated_act := X == gatedStr, is_encoder_decoder := ied,
        pad_token_id := pad, eos_token_id := eos } := by
  have hX : splitOnChar '-' X = [X] := splitOnChar_of_not_mem '-' X h
  have hne : ¬(X = gatedGeluStr) := by
    intro e
    apply h
    rw [e]
    decide
  simp only [Pop2PianoConfig.init, hX]
  rw [if_neg (by simp), if_neg hne]
  rfl

/-- Witness for C3 (amended) at `X = "relu"`. -/
theorem no_hyphen_parsing_witness :
    Pop2PianoConfig.init 32128 512 64 2048 6 none 8 32 128 0 0 1
        ("relu".toList) true true 0 1 = Except.ok cfgDefaultRelu :=
  no_hyphen_parsing 32128 512 64 2048 6 none 8 32 128 0 0 1
    ("relu".toList) true true 0 1 (by decide)

/-- C4 counterexample: `"A"` does not match `^(gated-)?[a-z_]+$` yet is
accepted by construction (stored unchanged), refuting the claim that every
accepted value matches the pattern. -/
theorem regex_claim_counterexample :
    matchesSpecPattern ("A".toList) = false ∧
    Except.map Pop2PianoConfig.feed_forward_proj
      (Pop2PianoConfig.init 32128 512 64 2048 6 none 8 32 128 0 0 1
        ("A".toList) true true 0 1) = Except.ok ("A".toList) := ⟨rfl, rfl⟩

/-- C4 amended: matching `^(gated-)?[a-z_]+$` is sufficient for acceptance,
but not necessary — acceptance is decided only by the segment shape of the
split, with no character-class restriction. -/
theorem pattern_implies_accepted
    (vs dm dkv dff nl : Int) (ndl : Option Int) (nh rb rm : Int)
    (dr lne inf : Rat) (ffp : Str) (ied uc : Bool) (pad eos : Int)
    (h : matchesSpecPattern ffp = true) :
    ∃ cfg, Pop2PianoConfig.init vs dm dkv dff nl ndl nh rb rm dr lne inf
        ffp ied uc pad eos = Except.ok cfg := by
  have hcore : ∀ t : Str,
      t.all (fun c => ('a' ≤ c && c ≤ 'z') || c = '_') = true → '-' ∉ t := by
    intro t hall hm
    have hp := List.all_eq_true.mp hall '-' hm
    exact absurd hp (by decide)
  simp only [matchesSpecPattern, Bool.or_eq_true, Bool.and_eq_true,
    decide_eq_true_eq] at h
  rcases h with h1 | ⟨h2, h3⟩
  · have hnd : '-' ∉ ffp := hcore ffp h1.2
    have hX : splitOnChar '-' ffp = [ffp] := splitOnChar_of_not_mem '-' ffp hnd
    have hok : Pop2PianoConfig.init vs dm dkv dff nl ndl nh rb rm dr lne inf
        ffp ied uc pad eos =
        Except.ok
          { vocab_size := vs, d_model := dm, d_kv := dkv, d_ff := dff,
            num_layers := nl,
            num_decoder_layers := match ndl with | some k => k | none => nl,
            num_heads := nh, relative_attention_num_buckets := rb,
            relative_attention_max_distance := rm, dropout_rate := dr,
            layer_norm_epsilon := lne, initializer_factor := inf,
            feed_forward_proj := ffp, use_cache := uc,
            dense_act_fn := if ffp = gatedGeluStr then geluNewStr else ffp,
            is_gated_act := ffp == gatedStr, is_encoder_decoder := ied,
            pad_token_id := pad, eos_token_id := eos } := by
      simp only [Pop2PianoConfig.init, hX]
      rw [if_neg (by simp)]
      rfl
    exact ⟨_, hok⟩
  · have hrest : '-' ∉ ffp.drop 6 := hcore _ h3.2
    have hffp : ffp = gatedStr ++ '-' :: ffp.drop 6 := by
      conv_lhs => rw [← List.take_append_drop 6 ffp]
      rw [h2]
      rfl
    rw [hffp]
    have hsplit : splitOnChar '-' (gatedStr ++ '-' :: ffp.drop 6) =
        [gatedStr, ffp.drop 6] := by
      rw [splitOnChar_append_cons '-' _ _ (by decide),
        splitOnChar_of_not_mem '-' _ hrest]
    have hok : Pop2PianoConfig.init vs dm dkv dff nl ndl nh rb rm dr lne inf
        (gatedStr ++ '-' :: ffp.drop 6) ied uc pad eos =
        Except.ok
          { vocab_size := vs, d_model := dm, d_kv := dkv, d_ff := dff,
            num_layers := nl,
            num_decoder_layers := match ndl with | some k => k | none => nl,
            num_heads := nh, relative_attention_num_buckets := rb,
            relative_attention_max_distance := rm, dropout_rate := dr,
            layer_norm_epsilon := lne, initializer_factor := inf,
            feed_forward_proj := gatedStr ++ '-' :: ffp.drop 6, use_cache := uc,
            dense_act_fn :=
              if gatedStr ++ '-' :: ffp.drop 6 = gatedGeluStr then geluNewStr
              else ffp.drop 6,
            is_gated_act := gatedStr == gatedStr, is_encoder_decoder := ied,
            pad_token_id := pad, eos_token_id := eos } := by
      simp only [Pop2PianoConfig.init, hsplit]
      rw [if_neg (by simp)]
      rfl
    exact ⟨_, hok⟩

/-- Witness for C4 (amended) at `"gated-gelu"`. -/
theorem pattern_implies_accepted_witness :
    ∃ cfg, Pop2PianoConfig.init 32128 512 64 2048 6 none 8 32 128 0 0 1
        ("gated-gelu".toList) true true 0 1 = Except.ok cfg :=
  pattern_implies_accepted 32128 512 64 2048 6 none 8 32 128 0 0 1
    ("gated-gelu".toList) true true 0 1 (by decide)
